import Mathlib

/-!
Verification of the authentication and authorization logic of the
passport-local-knex application (credential verification, password hashing,
access-gate middleware and the register/login route handlers).

The JavaScript source is shallowly embedded:

* the `users` table (migration `20160603105956_users.js`) becomes a list of
  `User` records; `knex('users').where(...).first()` becomes filter-then-head;
  the `admin` column default `false` is applied at insertion;
* an Express response write `res.status(code).json(\x7bstatus: msg\x7d)` becomes a
  `Response` value appended to the list of writes performed for one request;
  the response the client actually receives is the FIRST write (a second
  `res.json` on the same request throws "headers already sent" and never
  reaches the client), captured by `firstResponse`;
* bcryptjs `hashSync`/`compareSync` are modelled structurally: a hash is the
  29-character salt prefix followed by a digest of the plaintext, and
  `compareSync` re-extracts the salt, recomputes and compares, exactly as
  bcrypt does.  The Blowfish digest itself is idealized as an injective
  (collision-free) function of the plaintext, matching the specification's
  "false with overwhelming probability";
* asynchronous store failures are exogenous to a pure store, so the knex
  promise outcome is passed in explicitly (`DbResult`) where a claim is about
  error behaviour.
-/

/-- One row of the `users` table.  The migration declares
`increments()`, `string('username').unique().notNullable()`,
`string('password').notNullable()`,
`boolean('admin').notNullable().defaultTo(false)` and timestamps
(timestamps carry no authentication logic and are omitted). -/
structure User where
  id : Nat
  username : String
  password : String
  admin : Bool
deriving Repr, DecidableEq

/-- The `users` table: a list of rows in insertion order. -/
abbrev Store := List User

/-- One JSON response write `res.status(code).json(\x7bstatus: status\x7d)`. -/
structure Response where
  code : Nat
  status : String
deriving Repr, DecidableEq

/-- The JSON body of a login request.  `passport-local` reads the fields named
by `usernameField` (configured to `email`) and `passwordField` (`password`);
the application's tests submit a `username` field. -/
structure ReqBody where
  email : Option String
  username : Option String
  password : Option String
deriving Repr, DecidableEq

/-- An incoming request: the session-resolved user (`req.user`, `none` for an
anonymous caller) and the parsed JSON body. -/
structure Req where
  user : Option User
  body : ReqBody
deriving Repr, DecidableEq

/-! ### bcryptjs model -/

/-- Length of a bcrypt salt string `$2a$10$` plus 22 base64 characters. -/
def bcryptSaltLength : Nat := 29

/-- Model of `bcrypt.genSaltSync()`: a fresh 29-character salt derived from an
arbitrary seed (salt generation is nondeterministic in the library, so the
seed is exogenous). -/
def bcryptGenSaltSync (seed : Nat) : String :=
  "$2a$10$" ++ String.mk ((List.range 22).map (fun i => Char.ofNat (97 + (seed + i) % 26)))

/-- Model of `bcrypt.hashSync(plain, salt)`: the MCF output string is the salt
followed by the Blowfish-based digest of the plaintext under that salt.  The
digest is idealized as an injective encoding of the plaintext (bcrypt's
digest is collision-free only with overwhelming probability; the idealization
makes that exact), here the plaintext preceded by a separator. -/
def bcryptHashSync (plain salt : String) : String :=
  salt ++ "." ++ plain

/-- The salt embedded in a stored bcrypt hash: its first 29 characters. -/
def saltOfHash (hash : String) : String :=
  String.mk (hash.data.take bcryptSaltLength)

/-- Model of `bcrypt.compareSync(plain, hash)`: extract the salt embedded in
`hash`, recompute the hash of `plain` under it and compare, which is exactly
how bcrypt compares. -/
def bcryptCompareSync (plain hash : String) : Bool :=
  bcryptHashSync plain (saltOfHash hash) == hash

/-- `comparePass` from `src/server/auth/_helpers.js`:
`bcrypt.compareSync(userPassword, databasePassword)`. -/
def comparePass (userPassword databasePassword : String) : Bool :=
  bcryptCompareSync userPassword databasePassword

/-! ### knex query model -/

/-- `knex('users').where(\x7b username \x7d).first()`: the first row whose
`username` column equals the given value. -/
def knexUsersWhereUsernameFirst (db : Store) (username : String) : Option User :=
  (db.filter (fun r => r.username == username)).head?

/-- `knex('users').where(\x7b id \x7d).first()`: the first row with the given id. -/
def knexUsersWhereIdFirst (db : Store) (id : Nat) : Option User :=
  (db.filter (fun r => r.id == id)).head?

/-- The id `table.increments()` assigns to the next inserted row. -/
def nextId (db : Store) : Nat :=
  (db.map User.id).foldr Nat.max 0 + 1

/-! ### credential verifier (local strategy) -/

/-- Outcome of the `LocalStrategy` verify callback in
`src/server/auth/local.js`, one constructor per `done` call site:
`noSuchUser` for `if (!user) return done(null, false)`,
`badPassword` for the `done(null, false)` after a failed `comparePass`,
`authenticated` for `done(null, user)`. -/
inductive VerifyOutcome where
  | noSuchUser : VerifyOutcome
  | badPassword : VerifyOutcome
  | authenticated : User → VerifyOutcome
deriving Repr, DecidableEq

/-- The verify callback BODY of `src/server/auth/local.js`, read with its
declared parameter names as a function of a submitted username and password:
`knex('users').where(\x7b username \x7d).first().then((user) => ...)` followed by
the `!user` check and the `comparePass` check.  This is the verifier the
specification describes and the behaviour the body produces under correct
wiring (`runVerifyCallback_correctly_wired`); the checked-in options block
never invokes the body with these bindings — see `runVerifyCallback` and
`verifyInvocation` for what the program actually does. -/
def localVerify (db : Store) (username password : String) : VerifyOutcome :=
  match knexUsersWhereUsernameFirst db username with
  | none => .noSuchUser
  | some user =>
    if comparePass password user.password then .authenticated user
    else .badPassword

/-- The `user` argument the verify callback passes to `done`: `false`
(here `none`) for both failure outcomes, the stored record on success.  This
is all that the route-level custom callback can observe. -/
def doneUser : VerifyOutcome → Option User
  | .noSuchUser => none
  | .badPassword => none
  | .authenticated u => some u

/-! ### the strategy wiring of `src/server/auth/local.js`

The options block sets `passReqToCallback: true`, so passport-local invokes
the verify function as `verify(req, username, password, verified)` — four
arguments.  The callback is declared with only three parameters
`(username, password, done)`, and JavaScript binds positionally: `username`
receives the request object, `password` receives the submitted
username-field value, `done` receives the submitted password STRING, and the
`verified` continuation is dropped.  The values that can reach the callback's
parameters are therefore heterogeneous and are modelled by `JsValue`. -/

/-- A JavaScript value that can be bound to a parameter of the verify
callback: a string (a submitted field value), the Express request object, or
passport's `verified` continuation function. -/
inductive JsValue where
  | str : String → JsValue
  | reqObj : Req → JsValue
  | verifiedFn : JsValue
deriving Repr, DecidableEq

/-- Whether the `where(\x7b username \x7d)` clause matches a stored (string)
`username` column against the bound value: only a string can equal a string
column; the request object matches no row. -/
def usernameMatches (col : String) (v : JsValue) : Bool :=
  match v with
  | JsValue.str s => col == s
  | JsValue.reqObj _ => false
  | JsValue.verifiedFn => false

/-- Result of one execution of the verify callback body: either some `done`
call reached passport's `verified` continuation with an outcome, or a `done`
call was performed on a value that is not a function, raising a `TypeError`
inside the promise chain.  In the latter case the `.catch` handler's own
`done(err)` raises the same `TypeError`, the rejection escapes unhandled,
`verified` is never invoked, and the strategy produces no result at all. -/
inductive VerifyRun where
  | outcome : VerifyOutcome → VerifyRun
  | typeError : VerifyRun
deriving Repr, DecidableEq

/-- The verify callback body of `src/server/auth/local.js` executed with
arbitrary JavaScript values bound to its three parameters (the wiring decides
the binding): the `where` clause compares the `username` column against the
bound `username` value; each `return done(...)` site succeeds only when the
bound `done` is the `verified` continuation; `comparePass` (bcryptjs) throws
on a non-string `password` argument, and that rejection is answered by the
`.catch` calling `done(err)`, which again requires `done` to be a function.
(When the lookup promise itself rejects instead of resolving, the `.catch`
path calls `done(err)` directly — for a non-function `done` the run ends in
the same `typeError`.) -/
def runVerifyCallback (db : Store) (username password done : JsValue) : VerifyRun :=
  match (db.filter (fun r => usernameMatches r.username username)).head? with
  | none =>
    match done with
    | JsValue.verifiedFn => VerifyRun.outcome VerifyOutcome.noSuchUser
    | _ => VerifyRun.typeError
  | some user =>
    match password with
    | JsValue.str pw =>
      if comparePass pw user.password then
        match done with
        | JsValue.verifiedFn => VerifyRun.outcome (VerifyOutcome.authenticated user)
        | _ => VerifyRun.typeError
      else
        match done with
        | JsValue.verifiedFn => VerifyRun.outcome VerifyOutcome.badPassword
        | _ => VerifyRun.typeError
    | _ => VerifyRun.typeError

/-- The verify invocation the program performs on a login attempt whose
`email` and `password` fields are present and nonempty: passport-local calls
`verify(req, email, password, verified)` and the three declared parameters
bind the first three arguments — the request object, the email-field value,
and the submitted password string; `verified` is dropped. -/
def verifyInvocation (db : Store) (req : Req) (email password : String) : VerifyRun :=
  runVerifyCallback db (JsValue.reqObj req) (JsValue.str email) (JsValue.str password)

/-! ### session serialization -/

/-- `passport.serializeUser`: stores only `user.id` in the session. -/
def serializeUser (user : User) : Nat := user.id

/-- Outcome of a knex query promise: resolved with a value, or rejected with a
database error (connection failure etc., exogenous to the pure store). -/
inductive DbResult (α : Type) where
  | ok : α → DbResult α
  | err : String → DbResult α
deriving Repr, DecidableEq

/-- What `passport.deserializeUser`'s `done` call makes of the request:
`ctx u` means the request proceeds with `req.user = u` (passport clears the
session and proceeds anonymously when `done(null, undefined)` is called),
`hardFailure e` means `done(err, null)` was called, which passport routes to
`next(err)`, the error-handling path. -/
inductive DeserializeOutcome where
  | ctx : Option User → DeserializeOutcome
  | hardFailure : String → DeserializeOutcome
deriving Repr, DecidableEq

/-- `passport.deserializeUser` from the passport configuration:
`knex('users').where(\x7bid\x7d).first().then((user) => done(null, user))
.catch((err) => done(err, null))`, applied to the outcome of the knex
promise. -/
def deserializeUser (queryResult : DbResult (Option User)) : DeserializeOutcome :=
  match queryResult with
  | .ok user => .ctx user
  | .err e => .hardFailure e

/-- The deserialization query in normal store operation (no infrastructure
failure): look the serialized id up in the table. -/
def deserializeQuery (db : Store) (id : Nat) : DbResult (Option User) :=
  .ok (knexUsersWhereIdFirst db id)

/-! ### register: validation and user creation -/

/-- `handleErrors` from `src/server/auth/_helpers.js`: reject with the
username message when `req.body.username.length < 6`, else reject with the
password message when `req.body.password.length < 6`, else resolve. -/
def handleErrors (username password : String) : Except String Unit :=
  if username.length < 6 then
    Except.error "Username must be longer than 6 characters"
  else if password.length < 6 then
    Except.error "Password must be longer than 6 characters"
  else Except.ok ()

/-- The object literal `knex('users').insert(...)` receives in `createUser`:
it has exactly a `username` and a `password` key — in particular no `admin`
key, so the migration's `defaultTo(false)` decides the new row's flag. -/
structure InsertPayload where
  username : String
  password : String
deriving Repr, DecidableEq

/-- `knex('users').insert(payload).returning('*')`: appends a row completed
with the generated id and the `admin` column default `false`; rejects when the
`username` unique constraint is violated. -/
def knexUsersInsert (db : Store) (payload : InsertPayload) : DbResult (Store × List User) :=
  if db.any (fun r => r.username == payload.username) then
    DbResult.err "duplicate key value violates unique constraint"
  else
    let row : User := ⟨nextId db, payload.username, payload.password, false⟩
    DbResult.ok (db ++ [row], [row])

/-- `createUser(req, res)` from `src/server/auth/_helpers.js`:
`handleErrors(req).then(() => \x7b hash; insert \x7d).catch((err) =>
res.status(400).json(\x7bstatus: err.message\x7d))`.  The `.catch` turns any
rejection in the chain — a validation rejection or an insert rejection — into
a 400 write and a promise resolved with `undefined` (here `none`).  The salt
is the fresh `bcrypt.genSaltSync()` value, exogenous.  Returns the table
after the call, the writes performed, and the resolved value (the
`returning('*')` row list on success). -/
def createUser (db : Store) (username password salt : String) :
    Store × List Response × Option (List User) :=
  match handleErrors username password with
  | Except.error msg => (db, [⟨400, msg⟩], none)
  | Except.ok () =>
    let hash := bcryptHashSync password salt
    match knexUsersInsert db ⟨username, hash⟩ with
    | DbResult.err msg => (db, [⟨400, msg⟩], none)
    | DbResult.ok (db2, rows) => (db2, [], some rows)

/-! ### route handlers -/

/-- Result of handling one request: the table afterwards, the response writes
performed for the request in order, and the session-resolved user afterwards. -/
structure RouteResult where
  db : Store
  writes : List Response
  session : Option User
deriving Repr, DecidableEq

/-- The response the client receives: the first write.  A later
`res.status(...).json(...)` on the same request throws
"Cannot set headers after they are sent" and does not reach the client. -/
def firstResponse (r : RouteResult) : Option Response :=
  r.writes.head?

/-- `POST /auth/register` from `src/server/routes/auth.js`:
`loginRedirect` first (`if (req.user) return res.status(401)...`), then
`createUser(req, res).then((user) => \x7b handleLogin(res, user[0]); \x7d)
.then(() => 200 success).catch((err) => 500 error)`.

On the `createUser` failure path the chain resolves with `undefined`, so
`user[0]` throws and the `.catch` writes a second response, 500 `error`.
On the success path `handleLogin(res, user[0])` calls `res.login`, which does
not exist; the `TypeError` is raised inside the `new Promise` executor and
the resulting rejected promise is dropped (the `.then` callback does not
return it), so the session is never established and the chain proceeds to the
200 write.  `bodyAdmin` is an `admin` field a caller may put in the JSON
body; no code reads it. -/
def registerRoute (db : Store) (sessionUser : Option User)
    (username password : String) (_bodyAdmin : Option Bool) (salt : String) :
    RouteResult :=
  if sessionUser.isSome then
    ⟨db, [⟨401, "You are already logged in"⟩], sessionUser⟩
  else
    match createUser db username password salt with
    | (db2, writes, some _rows) => ⟨db2, writes ++ [⟨200, "success"⟩], sessionUser⟩
    | (db2, writes, none) => ⟨db2, writes ++ [⟨500, "error"⟩], sessionUser⟩

/-- `POST /auth/login` from `src/server/routes/auth.js`: `loginRedirect`
first, then `passport.authenticate('local', (err, user, info) => ...)`.
The strategy (`passport-local` with `usernameField: 'email'`) reads
`req.body.email` and `req.body.password`; when either is absent or empty it
fails with `Missing credentials` without calling the verify callback, so the
custom callback receives `user = false`.  Otherwise the strategy performs
`verifyInvocation`: because of the `passReqToCallback`/arity mismatch this
raises a `TypeError` inside the verify's promise chain, passport's
`verified` continuation is never invoked, the custom callback never runs,
and NO response is ever written — the request hangs (empty write list,
state untouched).  Had a `done` call reached `verified` with an outcome, the
custom callback would write 404 `User not found` when `!user` and 200
`success` when `user`; it never calls `req.login`, so the session is
unchanged on every path. -/
def loginRoute (db : Store) (req : Req) : RouteResult :=
  if req.user.isSome then
    ⟨db, [⟨401, "You are already logged in"⟩], req.user⟩
  else
    match req.body.email, req.body.password with
    | some email, some password =>
      if email == "" || password == "" then
        ⟨db, [⟨404, "User not found"⟩], req.user⟩
      else
        match verifyInvocation db req email password with
        | VerifyRun.outcome o =>
          match doneUser o with
          | none => ⟨db, [⟨404, "User not found"⟩], req.user⟩
          | some _ => ⟨db, [⟨200, "success"⟩], req.user⟩
        | VerifyRun.typeError => ⟨db, [], req.user⟩
    | _, _ => ⟨db, [⟨404, "User not found"⟩], req.user⟩

/-! ### admin gate -/

/-- Outcome of running a middleware and its downstream handler for one
request: `completed writes nextRan` lists the writes in order and whether
`next()` was invoked; `threw writes` means the middleware raised a
synchronous exception after the listed writes (Express then diverts to its
error handler; the first listed write, if any, already reached the client). -/
inductive MWOutcome where
  | completed : List Response → Bool → MWOutcome
  | threw : List Response → MWOutcome
deriving Repr, DecidableEq

/-- `adminRequired` from `src/server/auth/_helpers.js`, run with a downstream
handler whose writes are `downstream`:

* `if (!req.user) res.status(401).json(\x7bstatus: 'Please log in'\x7d);` —
  note: no `return`, so execution continues and the following
  `req.user.username` access throws a `TypeError` for an anonymous caller;
* `knex('users').where(\x7busername: req.user.username\x7d).first().then((user) =>
  \x7b if (!user.admin) res.status(401).json(\x7bstatus: 'You are not authorized'\x7d);
  return next(); \x7d)` — note: no `return` after the 401 either, so `next()`
  runs unconditionally when a row was found; when no row matches,
  `user.admin` throws inside the `.then`, the `.catch` writes 500
  `Something bad happened`, and `next()` is never reached. -/
def adminRequired (db : Store) (sessionUser : Option User)
    (downstream : List Response) : MWOutcome :=
  match sessionUser with
  | none => .threw [⟨401, "Please log in"⟩]
  | some u =>
    match knexUsersWhereUsernameFirst db u.username with
    | none => .completed [⟨500, "Something bad happened"⟩] false
    | some row =>
      if row.admin then .completed downstream true
      else .completed ([⟨401, "You are not authorized"⟩] ++ downstream) true

/-- `GET /admin` from `src/server/routes/user.js`: `adminRequired` guarding a
handler that writes `handleResponse(res, 200, 'success')`. -/
def adminEndpoint (db : Store) (sessionUser : Option User) : MWOutcome :=
  adminRequired db sessionUser [⟨200, "success"⟩]

/-- The response the client receives from the admin endpoint: the first write
performed for the request (later writes fail with "headers already sent"). -/
def observedResponse : MWOutcome → Option Response
  | .completed writes _ => writes.head?
  | .threw writes => writes.head?

/-! ### concrete fixtures (the seed data of the tutorial) -/

/-- A concrete 29-character salt of the bcrypt shape, standing for one output
of `bcrypt.genSaltSync()`. -/
def demoSalt : String := "$2a$10$abcdefghijklmnopqrstuv"

/-- The seeded user `jeremy` with password `johnson123` (not an admin). -/
def jeremy : User := ⟨1, "jeremy", bcryptHashSync "johnson123" demoSalt, false⟩

/-- The seeded user `kelly` with password `bryant123` and `admin: true`. -/
def kelly : User := ⟨2, "kelly", bcryptHashSync "bryant123" demoSalt, true⟩

/-- The seeded `users` table. -/
def demoDb : Store := [jeremy, kelly]

/-! ### helper lemmas -/

lemma head?_filter_eq_find? {α : Type} (p : α → Bool) (l : List α) :
    (l.filter p).head? = l.find? p := by
  induction l with
  | nil => rfl
  | cons a t ih =>
    by_cases h : p a <;> simp [List.filter, List.find?, h, ih]

lemma string_append_cancel (a b c : String) (h : a ++ b = a ++ c) : b = c := by
  have hd := congrArg String.data h
  simp [String.data_append] at hd
  exact String.ext hd

lemma saltOfHash_bcryptHashSync (plain salt : String)
    (h : salt.data.length = bcryptSaltLength) :
    saltOfHash (bcryptHashSync plain salt) = salt := by
  unfold saltOfHash bcryptHashSync
  have hdata : ((salt ++ ".") ++ plain).data = salt.data ++ (("." : String).data ++ plain.data) := by
    simp [String.data_append, List.append_assoc]
  rw [hdata, ← h, List.take_left]

lemma bcryptCompareSync_roundtrip (p salt : String)
    (h : salt.data.length = bcryptSaltLength) :
    bcryptCompareSync p (bcryptHashSync p salt) = true := by
  unfold bcryptCompareSync
  rw [saltOfHash_bcryptHashSync p salt h]
  simp

lemma bcryptCompareSync_mismatch (p q salt : String)
    (h : salt.data.length = bcryptSaltLength) (hne : p ≠ q) :
    bcryptCompareSync p (bcryptHashSync q salt) = false := by
  unfold bcryptCompareSync
  rw [saltOfHash_bcryptHashSync q salt h]
  apply beq_eq_false_iff_ne.mpr
  intro hcontra
  exact hne (string_append_cancel (salt ++ ".") p q hcontra)

lemma bcryptHashSync_ne_plain (p salt : String) : bcryptHashSync p salt ≠ p := by
  intro h
  have hlen := congrArg String.length h
  simp [bcryptHashSync, String.length_append] at hlen
  exact absurd hlen.2 (by decide)

lemma localVerify_eq_find? (db : Store) (username password : String) :
    localVerify db username password =
      match db.find? (fun r => r.username == username) with
      | none => VerifyOutcome.noSuchUser
      | some user =>
        if comparePass password user.password then VerifyOutcome.authenticated user
        else VerifyOutcome.badPassword := by
  unfold localVerify knexUsersWhereUsernameFirst
  rw [head?_filter_eq_find?]

lemma runVerifyCallback_correctly_wired (db : Store) (username password : String) :
    runVerifyCallback db (JsValue.str username) (JsValue.str password)
      JsValue.verifiedFn = VerifyRun.outcome (localVerify db username password) := by
  unfold runVerifyCallback localVerify knexUsersWhereUsernameFirst usernameMatches
  cases h : (db.filter (fun r => r.username == username)).head? with
  | none => rfl
  | some user => by_cases hc : comparePass password user.password <;> simp [hc]

lemma verifyInvocation_typeError (db : Store) (req : Req) (email password : String) :
    verifyInvocation db req email password = VerifyRun.typeError := by
  unfold verifyInvocation runVerifyCallback
  have hfilter : db.filter (fun r => usernameMatches r.username (JsValue.reqObj req)) = [] := by
    simp [usernameMatches]
  rw [hfilter]
  rfl

/-! ### claims -/

/-- Claim C1 evaluation (code bug): on every login attempt that reaches the
verify — any request object, any submitted email-field and password values —
the invocation as wired (`passReqToCallback: true` against the 3-parameter
callback) ends in a `TypeError`: the `where` clause is keyed by the request
object and matches no stored username, and the `done` it then calls is the
submitted password string.  `verified` is never reached, so the claimed
lookup-by-submitted-username and the NoSuchUser/BadPassword/Authenticated
outcomes never occur; in particular this happens for the seeded table and
the correct credentials of `jeremy`.  (Correct wiring of the same body would
give exactly the claimed verifier, `runVerifyCallback_correctly_wired`.) -/
theorem C1_verify_wiring_type_error :
    (∀ (db : Store) (req : Req) (email password : String),
      verifyInvocation db req email password = VerifyRun.typeError)
    ∧ verifyInvocation demoDb ⟨none, ⟨some "jeremy", none, some "johnson123"⟩⟩
        "jeremy" "johnson123" = VerifyRun.typeError := by
  constructor
  · intro db req email password
    exact verifyInvocation_typeError db req email password
  · exact verifyInvocation_typeError demoDb
      ⟨none, ⟨some "jeremy", none, some "johnson123"⟩⟩ "jeremy" "johnson123"

/-- Claim C2 evaluation (code bug): neither anonymous login request — with a
nonexistent username or with an existing username but a wrong password — is
ever answered: the verify path raises the wiring `TypeError`, the rejection
is swallowed by the promise chain, and the route writes NO response (the
client hangs), rather than the claimed 404 `User not found` bodies. -/
theorem C2_login_failures_unanswered :
    loginRoute demoDb ⟨none, ⟨some "michael", none, some "herman1"⟩⟩ =
      ⟨demoDb, [], none⟩
    ∧ loginRoute demoDb ⟨none, ⟨some "jeremy", none, some "wrongpass"⟩⟩ =
      ⟨demoDb, [], none⟩
    ∧ (loginRoute demoDb ⟨none, ⟨some "michael", none, some "herman1"⟩⟩).writes ≠
      [⟨404, "User not found"⟩] := by
  decide

/-- Claim C10: because the strategy is constructed with
`usernameField: 'email'`, an anonymous login request whose body carries
`username` and `password` fields but no `email` field fails with the
`Missing credentials` path and is answered 404 `User not found`, even when
the submitted username and password exactly match a stored record. -/
theorem C10_login_ignores_username_field (db : Store) (body : ReqBody)
    (uname pw : String) (rec : User)
    (hemail : body.email = none)
    ( _hu : body.username = some uname) (hp : body.password = some pw)
    ( _hrec : knexUsersWhereUsernameFirst db uname = some rec)
    ( _hmatch : comparePass pw rec.password = true) :
    loginRoute db ⟨none, body⟩ = ⟨db, [⟨404, "User not found"⟩], none⟩ := by
  unfold loginRoute
  simp [hemail, hp]

/-- Witness for C10: the seeded table holds `jeremy` with password
`johnson123`, yet a login request submitting exactly those values in the
`username`/`password` fields (no `email` field) is answered 404. -/
theorem C10_login_ignores_username_field_witness :
    loginRoute demoDb ⟨none, ⟨none, some "jeremy", some "johnson123"⟩⟩ =
      ⟨demoDb, [⟨404, "User not found"⟩], none⟩ :=
  C10_login_ignores_username_field demoDb ⟨none, some "jeremy", some "johnson123"⟩
    "jeremy" "johnson123" jeremy rfl rfl rfl (by decide) (by decide)

/-- Claim C4: for every anonymous register request, a username shorter than 6
characters is answered 400 with the username-length message whatever the
password is; with a username of length at least 6 and a password shorter
than 6 the answer is 400 with the password-length message; in both failure
cases no record is inserted. -/
theorem C4_register_validation (db : Store) (username password : String)
    (badmin : Option Bool) (salt : String) :
    (username.length < 6 →
      firstResponse (registerRoute db none username password badmin salt) =
        some ⟨400, "Username must be longer than 6 characters"⟩
      ∧ (registerRoute db none username password badmin salt).db = db)
    ∧ (6 ≤ username.length → password.length < 6 →
      firstResponse (registerRoute db none username password badmin salt) =
        some ⟨400, "Password must be longer than 6 characters"⟩
      ∧ (registerRoute db none username password badmin salt).db = db) := by
  constructor
  · intro hu
    unfold registerRoute createUser handleErrors
    simp [hu, firstResponse]
  · intro hu hp
    unfold registerRoute createUser handleErrors
    simp [Nat.not_lt_of_le hu, hp, firstResponse]

/-- Witness for C4: registering `six` (too short, with a valid password) is
answered 400 with the username message; registering `michael` with password
`five` is answered 400 with the password message; in both cases the seeded
table is unchanged. -/
theorem C4_register_validation_witness :
    (firstResponse (registerRoute demoDb none "six" "herman1" none demoSalt) =
        some ⟨400, "Username must be longer than 6 characters"⟩
      ∧ (registerRoute demoDb none "six" "herman1" none demoSalt).db = demoDb)
    ∧ (firstResponse (registerRoute demoDb none "michael" "five" none demoSalt) =
        some ⟨400, "Password must be longer than 6 characters"⟩
      ∧ (registerRoute demoDb none "michael" "five" none demoSalt).db = demoDb) :=
  ⟨(C4_register_validation demoDb "six" "herman1" none demoSalt).1 (by decide),
   (C4_register_validation demoDb "michael" "five" none demoSalt).2 (by decide) (by decide)⟩

/-- Claim C6: a successful registration appends exactly one record, whose
username is the submitted username, whose password column is the bcrypt hash
of the submitted password — never the submitted plaintext — and whose admin
flag is the store default `false`; and the entire outcome is independent of
any `admin` field the request body may carry (the insert payload has no
`admin` key). -/
theorem C6_register_insert_shape (db : Store) (username password salt : String)
    (a1 a2 : Option Bool)
    (hu : 6 ≤ username.length) (hp : 6 ≤ password.length)
    (hfresh : ∀ r ∈ db, r.username ≠ username) :
    (∃ row : User,
      (registerRoute db none username password a1 salt).db = db ++ [row]
      ∧ row.username = username
      ∧ row.password = bcryptHashSync password salt
      ∧ row.password ≠ password
      ∧ row.admin = false)
    ∧ registerRoute db none username password a1 salt =
        registerRoute db none username password a2 salt := by
  refine ⟨⟨⟨nextId db, username, bcryptHashSync password salt, false⟩, ?_, rfl, rfl,
    bcryptHashSync_ne_plain password salt, rfl⟩, rfl⟩
  have hany : db.any (fun r => r.username == username) = false := by
    rw [List.any_eq_false]
    intro r hr
    simp only [beq_iff_eq]
    exact hfresh r hr
  unfold registerRoute createUser handleErrors knexUsersInsert
  simp [Nat.not_lt_of_le hu, Nat.not_lt_of_le hp, hany]

/-- Witness for C6: registering `michael` with password `herman1` against the
seeded table appends one row holding the hash, not the plaintext, with
`admin = false`, and an `admin: true` field in the body changes nothing. -/
theorem C6_register_insert_shape_witness :
    (∃ row : User,
      (registerRoute demoDb none "michael" "herman1" (some true) demoSalt).db =
        demoDb ++ [row]
      ∧ row.username = "michael"
      ∧ row.password = bcryptHashSync "herman1" demoSalt
      ∧ row.password ≠ "herman1"
      ∧ row.admin = false)
    ∧ registerRoute demoDb none "michael" "herman1" (some true) demoSalt =
        registerRoute demoDb none "michael" "herman1" none demoSalt :=
  C6_register_insert_shape demoDb "michael" "herman1" demoSalt (some true) none
    (by decide) (by decide) (by decide)

/-- Claim C7: a register or login request made while the session already
resolves a user is answered with the single write 401
`You are already logged in`; the table is untouched and the resolved session
user is unchanged, because `loginRedirect` returns before the downstream
handler can run. -/
theorem C7_already_logged_in (db : Store) (u : User) (body : ReqBody)
    (username password : String) (badmin : Option Bool) (salt : String) :
    registerRoute db (some u) username password badmin salt =
      ⟨db, [⟨401, "You are already logged in"⟩], some u⟩
    ∧ loginRoute db ⟨some u, body⟩ =
      ⟨db, [⟨401, "You are already logged in"⟩], some u⟩ := by
  constructor
  · unfold registerRoute
    rfl
  · unfold loginRoute
    rfl

/-- Witness for C7: with `jeremy` already logged in, both a register request
and a login request are answered 401 and leave the seeded table and the
session untouched. -/
theorem C7_already_logged_in_witness :
    registerRoute demoDb (some jeremy) "michael" "herman1" none demoSalt =
      ⟨demoDb, [⟨401, "You are already logged in"⟩], some jeremy⟩
    ∧ loginRoute demoDb ⟨some jeremy, ⟨some "jeremy", none, some "johnson123"⟩⟩ =
      ⟨demoDb, [⟨401, "You are already logged in"⟩], some jeremy⟩ :=
  C7_already_logged_in demoDb jeremy ⟨some "jeremy", none, some "johnson123"⟩
    "michael" "herman1" none demoSalt

/-- Claim C3 evaluation: the admin guard is NOT a terminal short-circuit.  On
a request by the logged-in non-admin `jeremy`, the guard writes the 401
`You are not authorized` response and then still calls `next()` (the `true`),
so the downstream handler runs and performs a second write, 200 `success` —
two response writes for one request, contradicting the claim that a
short-circuited request never reaches the downstream handler. -/
theorem C3_admin_guard_not_terminal :
    adminEndpoint demoDb (some jeremy) =
      MWOutcome.completed [⟨401, "You are not authorized"⟩, ⟨200, "success"⟩] true := by
  decide

/-- Claim C5: the response the caller of the admin endpoint receives (the
first write of the request) is 200 `success` when the session user's stored
record has `admin = true`, 401 `You are not authorized` when the record has
`admin = false`, and 401 `Please log in` for an anonymous caller. -/
theorem C5_admin_endpoint_responses (db : Store) (u rec : User)
    (hfind : knexUsersWhereUsernameFirst db u.username = some rec) :
    (rec.admin = true →
      observedResponse (adminEndpoint db (some u)) = some ⟨200, "success"⟩)
    ∧ (rec.admin = false →
      observedResponse (adminEndpoint db (some u)) =
        some ⟨401, "You are not authorized"⟩)
    ∧ observedResponse (adminEndpoint db none) = some ⟨401, "Please log in"⟩ := by
  refine ⟨fun hadmin => ?_, fun hadmin => ?_, rfl⟩
  · unfold adminEndpoint adminRequired
    simp [hfind, hadmin, observedResponse]
  · unfold adminEndpoint adminRequired
    simp [hfind, hadmin, observedResponse]

/-- Witness for C5: on the seeded table, the admin `kelly` receives 200, the
non-admin `jeremy` receives 401 `You are not authorized`, and an anonymous
caller receives 401 `Please log in`. -/
theorem C5_admin_endpoint_responses_witness :
    (observedResponse (adminEndpoint demoDb (some kelly)) = some ⟨200, "success"⟩)
    ∧ (observedResponse (adminEndpoint demoDb (some jeremy)) =
        some ⟨401, "You are not authorized"⟩)
    ∧ observedResponse (adminEndpoint demoDb none) = some ⟨401, "Please log in"⟩ :=
  ⟨(C5_admin_endpoint_responses demoDb kelly kelly (by decide)).1 (by decide),
   (C5_admin_endpoint_responses demoDb jeremy jeremy (by decide)).2.1 (by decide),
   (C5_admin_endpoint_responses demoDb jeremy jeremy (by decide)).2.2⟩

/-- Claim C8 counterexample: when the deserialization query errors, the
configured `deserializeUser` calls `done(err, null)`, which passport routes
to the error-handling path — a hard failure — and NOT to an anonymous
request context, contradicting the claim for the store-error case. -/
theorem C8_store_error_counterexample :
    deserializeUser (DbResult.err "connection terminated unexpectedly") =
      DeserializeOutcome.hardFailure "connection terminated unexpectedly"
    ∧ deserializeUser (DbResult.err "connection terminated unexpectedly") ≠
      DeserializeOutcome.ctx none := by
  decide

/-- Claim C8 as amended: when the referenced user record no longer exists the
query resolves with no row and the request proceeds with an unauthenticated
(anonymous) context, but when the store lookup errors `deserializeUser`
reports the error (`done(err, null)`), which is a hard failure, not an
anonymous context. -/
theorem C8_deserialize_amended (db : Store) (id : Nat) (e : String)
    (hgone : knexUsersWhereIdFirst db id = none) :
    deserializeUser (deserializeQuery db id) = DeserializeOutcome.ctx none
    ∧ deserializeUser (DbResult.err e) = DeserializeOutcome.hardFailure e := by
  constructor
  · unfold deserializeQuery
    rw [hgone]
    rfl
  · rfl

/-- Witness for C8 (amended): id 99 is in no row of the seeded table, so its
deserialization yields the anonymous context, while a query error yields the
hard failure. -/
theorem C8_deserialize_amended_witness :
    deserializeUser (deserializeQuery demoDb 99) = DeserializeOutcome.ctx none
    ∧ deserializeUser (DbResult.err "connection refused") =
      DeserializeOutcome.hardFailure "connection refused" :=
  C8_deserialize_amended demoDb 99 "connection refused" (by decide)

/-- Claim C9: for every plaintext and every (29-character) salt,
`comparePass` of the plaintext against its own `bcrypt.hashSync` hash is
true, and against the hash of any other plaintext it is false (in the model
the idealized digest is collision-free, making exact the specification's
"false with overwhelming probability"). -/
theorem C9_bcrypt_roundtrip (p q salt : String)
    (hs : salt.data.length = bcryptSaltLength) :
    comparePass p (bcryptHashSync p salt) = true
    ∧ (p ≠ q → comparePass p (bcryptHashSync q salt) = false) := by
  constructor
  · exact bcryptCompareSync_roundtrip p salt hs
  · intro hne
    exact bcryptCompareSync_mismatch p q salt hs hne

/-- Witness for C9: round-trip and mismatch evaluated on the concrete salt
and the tutorial's seeded passwords. -/
theorem C9_bcrypt_roundtrip_witness :
    comparePass "johnson123" (bcryptHashSync "johnson123" demoSalt) = true
    ∧ comparePass "johnson123" (bcryptHashSync "bryant123" demoSalt) = false :=
  ⟨(C9_bcrypt_roundtrip "johnson123" "bryant123" demoSalt (by decide)).1,
   (C9_bcrypt_roundtrip "johnson123" "bryant123" demoSalt (by decide)).2 (by decide)⟩
